import Mathlib

/-!
Verification of the manifest-bundle retriever (src/main.py) against its
natural-language specification.  The Python source is shallowly embedded:
network responses become oracle functions, the filesystem becomes an explicit
association list of (filename, content) pairs threaded through the
computation, and Python exceptions become an `Except` error channel.  Each
embedded definition mirrors one Python function and keeps its name.
-/

namespace Manifest2Lua

/-!
Python string builtins, modelled structurally over the character list of a
`String` so that every definition evaluates by kernel reduction.
-/

/-- Python `s.startswith(p)`. -/
def pyStartsWith (s p : String) : Bool :=
  p.data.isPrefixOf s.data

/-- Python `s.endswith(p)`. -/
def pyEndsWith (s p : String) : Bool :=
  p.data.isSuffixOf s.data

/-- Python truthiness of a `str` or `bytes` value: empty is falsy. -/
def pyEmpty (s : String) : Bool :=
  s.data.isEmpty

/-- Python `s.strip()`: remove leading and trailing whitespace. -/
def pyStrip (s : String) : String :=
  ⟨((s.data.dropWhile Char.isWhitespace).reverse.dropWhile Char.isWhitespace).reverse⟩

/-- Python `s.split(sep)` for a one-character separator, on character
lists: splitting the empty string yields one empty field. -/
def pySplitChars (sep : Char) : List Char → List (List Char)
  | [] => [[]]
  | c :: cs =>
    let r := pySplitChars sep cs
    if c == sep then [] :: r
    else
      match r with
      | [] => [[c]]
      | g :: gs => (c :: g) :: gs

/-- Python `s.split(sep)` for a one-character separator. -/
def pySplit (sep : Char) (s : String) : List String :=
  (pySplitChars sep s.data).map String.mk

/-- Python slice `s[a:-b]` (used as `manifest_file[len(depot_id)+1 :
-len(".manifest")]`): drop `a` characters on the left and `b` on the
right, empty when the bounds cross. -/
def pySlice (s : String) (a b : Nat) : String :=
  ⟨(s.data.drop a).take ((s.data.drop a).length - b)⟩

/-- A single HTTP response as seen by the downloader `get`:
either a transport-level error (aiohttp.ClientError) or a status code with a
body. -/
inductive Resp where
  | err : Resp
  | hit (status : Nat) (body : String) : Resp
deriving DecidableEq, Repr

/-- Does the response have status 200 (the only case `get` accepts)? -/
def isHit200 : Resp → Bool
  | .hit s _ => s == 200
  | .err => false

/-- The five mirror URL templates of `get` (src/main.py lines 71-77), in
source order: jsdelivr gcore, jsdelivr fastly, jsdelivr cdn, ghproxy,
raw.dgithub.xyz. -/
def url_list (repo sha path : String) : List String :=
  [ "https://gcore.jsdelivr.net/gh/" ++ repo ++ "@" ++ sha ++ "/" ++ path
  , "https://fastly.jsdelivr.net/gh/" ++ repo ++ "@" ++ sha ++ "/" ++ path
  , "https://cdn.jsdelivr.net/gh/" ++ repo ++ "@" ++ sha ++ "/" ++ path
  , "https://ghproxy.org/https://raw.githubusercontent.com/" ++ repo ++ "/" ++ sha ++ "/" ++ path
  , "https://raw.dgithub.xyz/" ++ repo ++ "/" ++ sha ++ "/" ++ path ]

/-- One pass of the inner `for url in url_list` loop of `get`:
try each URL in order against the response oracle `net`; stop at the first
status-200 response.  Returns the result together with the list of URLs
actually requested during the pass. -/
def tryUrls (net : String → Resp) : List String → Option String × List String
  | [] => (none, [])
  | u :: us =>
    match net u with
    | .hit s b =>
      if s == 200 then (some b, [u])
      else
        let r := tryUrls net us
        (r.1, u :: r.2)
    | .err =>
      let r := tryUrls net us
      (r.1, u :: r.2)

/-- The outer `while retry` loop of `get`.  `net a u` is the response the
network gives to URL `u` during attempt number `a` (0-based); the fuel
argument is the remaining retry count.  Returns the downloaded body (if any)
and the trace of (attempt, url) requests issued. -/
def getRetry (net : Nat → String → Resp) (urls : List String) (attempt : Nat) :
    Nat → Option String × List (Nat × String)
  | 0 => (none, [])
  | n + 1 =>
    let r := tryUrls (net attempt) urls
    match r.1 with
    | some b => (some b, r.2.map (fun u => (attempt, u)))
    | none =>
      let r2 := getRetry net urls (attempt + 1) n
      (r2.1, r.2.map (fun u => (attempt, u)) ++ r2.2)

/-- `get(sha, path, repo)` (src/main.py lines 70-93): try every mirror in
order, up to 3 attempts, returning the first 200-body, else `none`. -/
def get (net : Nat → String → Resp) (sha path repo : String) :
    Option String × List (Nat × String) :=
  getRetry net (url_list repo sha path) 0 3

/-- A parsed VDF document (the result of vdf.loads): a nested string-keyed
mapping whose leaves are strings. -/
inductive VDF where
  | str (s : String) : VDF
  | dict (entries : List (String × VDF)) : VDF

/-- The Python exceptions this program can raise in the embedded fragment. -/
inductive PyErr where
  | indexError : PyErr
  | keyError (k : String) : PyErr
  | typeError : PyErr
  | attributeError : PyErr
deriving DecidableEq, Repr

/-- Python subscript `v[key]` on a parsed VDF value: KeyError when the key is
absent, TypeError when the value is a string rather than a mapping. -/
def VDF.get? : VDF → String → Except PyErr VDF
  | .str _, _ => .error .typeError
  | .dict es, k =>
    match es.lookup k with
    | some v => .ok v
    | none => .error (.keyError k)

/-- Leaf rendering used when a decryption key is interpolated into the Lua
script.  VDF text has only string leaves, so the dict case is vestigial. -/
def VDF.asStr : VDF → String
  | .str s => s
  | .dict _ => ""

/-- The key-extraction loop of `get_manifest` (src/main.py lines 119-121):
`depots_config['depots'].items()`, collecting `(depot_id,
depot_info['DecryptionKey'])` pairs; missing keys raise. -/
def extract_depots (v : VDF) : Except PyErr (List (String × String)) := do
  let depots ← v.get? "depots"
  match depots with
  | .str _ => .error .attributeError
  | .dict es =>
    es.mapM (fun p => do
      let k ← p.2.get? "DecryptionKey"
      pure (p.1, k.asStr))

/-- Result of one `get_manifest` call: the depot records it returned (or the
exception it raised), the save-directory contents after the call, and the
(repo, path) pairs it passed to `get`. -/
structure GMRes where
  result : Except PyErr (List (String × String))
  fs : List (String × String)
  fetched : List (String × String)
deriving Repr

/-- `get_manifest(sha, path, save_dir, repo)` (src/main.py lines 97-127).
`loads` stands for `vdf.loads` composed with UTF-8 decoding, `fetch repo sha
path` for the body `get` returns, and `fs` for the files currently in the
save directory.  A fetched body that is empty is falsy in Python and is
treated like a failed download. -/
def get_manifest (loads : String → VDF) (fetch : String → String → String → Option String)
    (sha path : String) (fs : List (String × String)) (repo : String) : GMRes :=
  if pyEndsWith path ".manifest" then
    if (fs.lookup path).isSome then
      ⟨.ok [], fs, []⟩
    else
      match fetch repo sha path with
      | some content =>
        if pyEmpty content then ⟨.ok [], fs, [(repo, path)]⟩
        else ⟨.ok [], fs ++ [(path, content)], [(repo, path)]⟩
      | none => ⟨.ok [], fs, [(repo, path)]⟩
  else if path = "Key.vdf" ∨ path = "config.vdf" then
    match fetch repo sha path with
    | some content =>
      if pyEmpty content then ⟨.ok [], fs, [(repo, path)]⟩
      else
        match extract_depots (loads content) with
        | .ok ds => ⟨.ok ds, fs, [(repo, path)]⟩
        | .error e => ⟨.error e, fs, [(repo, path)]⟩
    | none => ⟨.ok [], fs, [(repo, path)]⟩
  else ⟨.ok [], fs, []⟩

/-- The fixed repository priority list (src/main.py line 14). -/
def repos : List String :=
  [ "ManifestHub/ManifestHub"
  , "hansaes/ManifestAutoUpdate"
  , "Auiowu/ManifestAutoUpdate"
  , "tymolu233/ManifestAutoUpdate"
  , "qwq-xinkeng/awaqwqmain" ]

/-- Result of processing one resolved repository: the collected depot records
(or the propagated exception), the directory contents afterwards, and the
(repo, path) fetches issued. -/
structure PRRes where
  result : Except PyErr (List (String × String))
  fs : List (String × String)
  fetched : List (String × String)
deriving Repr

/-- The `for vdf_path in vdf_paths` loop of `download_and_process`
(src/main.py lines 157-162): try each key-file name in order, stopping at the
first whose `get_manifest` result is non-empty; exceptions propagate. -/
def tryVdfLoop (loads : String → VDF) (fetch : String → String → String → Option String)
    (sha repo : String) : List String → List (String × String) → PRRes
  | [], fs => ⟨.ok [], fs, []⟩
  | p :: ps, fs =>
    let r := get_manifest loads fetch sha p fs repo
    match r.result with
    | .error e => ⟨.error e, r.fs, r.fetched⟩
    | .ok ds =>
      if ds.isEmpty then
        let r2 := tryVdfLoop loads fetch sha repo ps r.fs
        ⟨r2.result, r2.fs, r.fetched ++ r2.fetched⟩
      else ⟨.ok ds, r.fs, r.fetched⟩

/-- The `for item in r2_json['tree']` loop of `download_and_process`
(src/main.py lines 165-168): run `get_manifest` on every tree path ending in
`.manifest`, extending the accumulator with each result. -/
def manifestLoop (loads : String → VDF) (fetch : String → String → String → Option String)
    (sha repo : String) :
    List String → List (String × String) → List (String × String) → PRRes
  | [], fs, acc => ⟨.ok acc, fs, []⟩
  | p :: ps, fs, acc =>
    if pyEndsWith p ".manifest" then
      let r := get_manifest loads fetch sha p fs repo
      match r.result with
      | .error e => ⟨.error e, r.fs, r.fetched⟩
      | .ok ds =>
        let r2 := manifestLoop loads fetch sha repo ps r.fs (acc ++ ds)
        ⟨r2.result, r2.fs, r.fetched ++ r2.fetched⟩
    else manifestLoop loads fetch sha repo ps fs acc

/-- The body of `download_and_process` for one repository whose branch and
tree resolved (src/main.py lines 154-168): key files first, then every
manifest in the tree. -/
def processRepo (loads : String → VDF) (fetch : String → String → String → Option String)
    (repo sha : String) (tree : List String) (fs : List (String × String)) : PRRes :=
  let rv := tryVdfLoop loads fetch sha repo ["Key.vdf", "config.vdf"] fs
  match rv.result with
  | .error e => ⟨.error e, rv.fs, rv.fetched⟩
  | .ok ds =>
    let rm := manifestLoop loads fetch sha repo tree rv.fs ds
    ⟨rm.result, rm.fs, rv.fetched ++ rm.fetched⟩

/-- Observable state of one `download_and_process` run: save-directory
contents, the (repo, path) fetch calls issued, the repositories whose branch
endpoint was queried, and the directories created. -/
structure DPState where
  fs : List (String × String)
  fetched : List (String × String)
  resolved : List String
  dirs : List String
deriving Repr

/-- The `for repo in repos` loop of `download_and_process` (src/main.py lines
140-175).  `resolve repo app_id` abstracts the two GitHub API queries (branch
metadata, then the tree listing): `none` when either the `commit` or the
`tree` field is absent, otherwise the commit sha and the tree's file paths.
The loop returns at the first repository whose collected depot list is
non-empty. -/
def repoLoop (loads : String → VDF) (fetch : String → String → String → Option String)
    (resolve : String → String → Option (String × List String)) (canonical : String) :
    List String → DPState → Except PyErr (Option (List (String × String))) × DPState
  | [], st => (.ok none, st)
  | repo :: rest, st =>
    let st1 : DPState := { st with resolved := st.resolved ++ [repo] }
    match resolve repo canonical with
    | none => repoLoop loads fetch resolve canonical rest st1
    | some (sha, tree) =>
      let pr := processRepo loads fetch repo sha tree st1.fs
      let st2 : DPState := { st1 with fs := pr.fs, fetched := st1.fetched ++ pr.fetched }
      match pr.result with
      | .error e => (.error e, st2)
      | .ok ds => if ds.isEmpty then repoLoop loads fetch resolve canonical rest st2
                  else (.ok (some ds), st2)

/-- Python's `str.isdecimal` on the strings this program handles: non-empty
and made of decimal digits only. -/
def isdecimal (s : String) : Bool :=
  !s.data.isEmpty && s.data.all Char.isDigit

/-- The identifier normalization of `download_and_process` (src/main.py line
132): `list(filter(str.isdecimal, app_id.strip().split('-')))`. -/
def normalizeAppId (app_id : String) : List String :=
  (pySplit '-' (pyStrip app_id)).filter isdecimal

/-- `download_and_process` after normalization succeeded (src/main.py lines
136-178): create the save directory, run the repository loop, and map its
outcome to the returned pair. -/
def dpCore (loads : String → VDF) (fetch : String → String → String → Option String)
    (resolve : String → String → Option (String × List String))
    (app_id game_name : String) (fs0 : List (String × String)) :
    Except PyErr (List (String × String) × String) × DPState :=
  let save_dir := "[" ++ app_id ++ "]" ++ game_name
  let st0 : DPState := ⟨fs0, [], [], [save_dir]⟩
  let r := repoLoop loads fetch resolve app_id repos st0
  match r.1 with
  | .error e => (.error e, r.2)
  | .ok (some ds) => (.ok (ds, save_dir), r.2)
  | .ok none => (.ok ([], save_dir), r.2)

/-- `download_and_process(app_id, game_name)` (src/main.py lines 131-178).
`fs0` is the save directory's initial contents (empty on a fresh run).  The
subscript `app_id_list[0]` on an empty filter result raises IndexError before
any directory is created or any network request is issued. -/
def download_and_process (loads : String → VDF)
    (fetch : String → String → String → Option String)
    (resolve : String → String → Option (String × List String))
    (app_id game_name : String) (fs0 : List (String × String)) :
    Except PyErr (List (String × String) × String) × DPState :=
  match normalizeAppId app_id with
  | [] => (.error .indexError, ⟨fs0, [], [], []⟩)
  | canonical :: _ => dpCore loads fetch resolve canonical game_name fs0

/-- `parse_vdf_to_lua(depot_info, appid, save_dir)` (src/main.py lines
182-197).  `listing` is `os.listdir(save_dir)` in directory order. -/
def parse_vdf_to_lua (depot_info : List (String × String)) (appid : String)
    (listing : List String) : String :=
  let lua_lines :=
    ("addappid(" ++ appid ++ ")") ::
      depot_info.flatMap (fun di =>
        ("addappid(" ++ di.1 ++ ",1,\"" ++ di.2 ++ "\")") ::
          ((listing.filter (fun f =>
              pyStartsWith f (di.1 ++ "_") && pyEndsWith f ".manifest")).map
            (fun f =>
              "setManifestid(" ++ di.1 ++ ",\"" ++
                pySlice f (di.1.length + 1) ".manifest".length ++ "\",0)")))
  String.intercalate "\n" lua_lines

/-- The tail of `main` (src/main.py lines 221-230): the Lua script file is
produced only when the collected depot list is non-empty. -/
def main_lua_output (appid : String) (collected : List (String × String))
    (save_dir : String) (listing : List String) : Option (String × String) :=
  if collected.isEmpty then none
  else some (save_dir ++ "/" ++ appid ++ ".lua",
             parse_vdf_to_lua collected appid listing)

/-! ### Lemmas about the mirror fetcher -/

theorem tryUrls_all_fail (net : String → Resp) :
    ∀ us : List String, (∀ v ∈ us, isHit200 (net v) = false) →
      tryUrls net us = (none, us) := by
  intro us
  induction us with
  | nil => intro _; rfl
  | cons u us ih =>
    intro h
    have hu := h u (by simp)
    have hrest : ∀ v ∈ us, isHit200 (net v) = false := fun v hv => h v (by simp [hv])
    cases hnet : net u with
    | err => simp [tryUrls, hnet, ih hrest]
    | hit s b =>
      have hs : (s == 200) = false := by rw [hnet] at hu; simpa [isHit200] using hu
      simp [tryUrls, hnet, hs, ih hrest]

theorem tryUrls_first_success (net : String → Resp) :
    ∀ (pre : List String) (u : String) (post : List String) (c : String),
      (∀ v ∈ pre, isHit200 (net v) = false) → net u = .hit 200 c →
      tryUrls net (pre ++ u :: post) = (some c, pre ++ [u]) := by
  intro pre
  induction pre with
  | nil => intro u post c _ hu; simp [tryUrls, hu]
  | cons v vs ih =>
    intro u post c h hu
    have hv := h v (by simp)
    have hrest : ∀ w ∈ vs, isHit200 (net w) = false := fun w hw => h w (by simp [hw])
    cases hnet : net v with
    | err => simp [tryUrls, hnet, ih u post c hrest hu]
    | hit s b =>
      have hs : (s == 200) = false := by rw [hnet] at hv; simpa [isHit200] using hv
      simp [tryUrls, hnet, hs, ih u post c hrest hu]

theorem getRetry_success (net : Nat → String → Resp) (urls : List String)
    (attempt n : Nat) (c : String) (tr : List String)
    (h : tryUrls (net attempt) urls = (some c, tr)) :
    getRetry net urls attempt (n + 1) = (some c, tr.map (fun u => (attempt, u))) := by
  simp [getRetry, h]

theorem getRetry_fail_step (net : Nat → String → Resp) (urls : List String)
    (attempt n : Nat) (tr : List String)
    (h : tryUrls (net attempt) urls = (none, tr)) :
    getRetry net urls attempt (n + 1) =
      ((getRetry net urls (attempt + 1) n).1,
       tr.map (fun u => (attempt, u)) ++ (getRetry net urls (attempt + 1) n).2) := by
  simp [getRetry, h]

/-- Claim C3: if, on the first attempt, every mirror before some URL `u` in
the fixed mirror order answers with a non-200 status or a connection error
and `u` answers 200 with body `c`, then `get` returns exactly `c` and its
request trace is precisely the first attempt's mirrors up to and including
`u` — no later mirror and no further attempt is tried. -/
theorem get_mirror_fallback (net : Nat → String → Resp) (repo sha path c u : String)
    (pre post : List String)
    (hsplit : url_list repo sha path = pre ++ u :: post)
    (hpre : ∀ v ∈ pre, isHit200 (net 0 v) = false)
    (hu : net 0 u = .hit 200 c) :
    get net sha path repo = (some c, (pre ++ [u]).map (fun v => (0, v))) := by
  have h1 : tryUrls (net 0) (url_list repo sha path) = (some c, pre ++ [u]) := by
    rw [hsplit]; exact tryUrls_first_success (net 0) pre u post c hpre hu
  exact getRetry_success net (url_list repo sha path) 0 2 c (pre ++ [u]) h1

/-- Claim C3 witness: the first four mirrors answer 404 and the fifth
(raw.dgithub.xyz) answers 200. -/
theorem get_mirror_fallback_witness :
    get (fun _ v => if v = "https://raw.dgithub.xyz/r/s/p" then .hit 200 "c" else .hit 404 "")
        "s" "p" "r" =
      (some "c",
        (["https://gcore.jsdelivr.net/gh/r@s/p", "https://fastly.jsdelivr.net/gh/r@s/p",
          "https://cdn.jsdelivr.net/gh/r@s/p",
          "https://ghproxy.org/https://raw.githubusercontent.com/r/s/p"] ++
          ["https://raw.dgithub.xyz/r/s/p"]).map (fun v => (0, v))) :=
  get_mirror_fallback
    (fun _ v => if v = "https://raw.dgithub.xyz/r/s/p" then .hit 200 "c" else .hit 404 "")
    "r" "s" "p" "c" "https://raw.dgithub.xyz/r/s/p"
    ["https://gcore.jsdelivr.net/gh/r@s/p", "https://fastly.jsdelivr.net/gh/r@s/p",
     "https://cdn.jsdelivr.net/gh/r@s/p",
     "https://ghproxy.org/https://raw.githubusercontent.com/r/s/p"]
    [] (by decide) (by decide) (by decide)

/-- Claim C4: if every mirror fails (non-200 or transport error) on every
attempt, `get` returns `none` after exactly 3 × 5 requests, and the caller
`get_manifest` treats the missing body as "file unavailable": it returns
successfully with no depot records and writes nothing. -/
theorem get_retry_exhaustion (net : Nat → String → Resp) (sha path repo : String)
    (loads : String → VDF) (fs : List (String × String))
    (hfail : ∀ (a : Nat), ∀ v ∈ url_list repo sha path, isHit200 (net a v) = false)
    (hm : pyEndsWith path ".manifest" = true)
    (hnew : (fs.lookup path).isSome = false) :
    (get net sha path repo).1 = none
    ∧ (get net sha path repo).2.length = 3 * (url_list repo sha path).length
    ∧ get_manifest loads (fun r s p => (get net s p r).1) sha path fs repo
        = ⟨.ok [], fs, [(repo, path)]⟩ := by
  have hstep : ∀ a : Nat, tryUrls (net a) (url_list repo sha path) =
      (none, url_list repo sha path) :=
    fun a => tryUrls_all_fail (net a) _ (hfail a)
  have h3 : get net sha path repo =
      (none,
        (url_list repo sha path).map (fun u => (0, u)) ++
          ((url_list repo sha path).map (fun u => (1, u)) ++
            ((url_list repo sha path).map (fun u => (2, u)) ++ []))) := by
    show getRetry net (url_list repo sha path) 0 3 = _
    rw [getRetry_fail_step net _ 0 2 _ (hstep 0),
        getRetry_fail_step net _ 1 1 _ (hstep 1),
        getRetry_fail_step net _ 2 0 _ (hstep 2)]
    rfl
  refine ⟨by rw [h3], ?_, ?_⟩
  · rw [h3]; simp; ring
  · have hn : (get net sha path repo).1 = none := by rw [h3]
    simp [get_manifest, hm, hnew, hn]

/-- Claim C4 witness: a network where every request errors. -/
theorem get_retry_exhaustion_witness :
    (get (fun _ _ => .err) "s" "441_123.manifest" "r").1 = none
    ∧ (get (fun _ _ => .err) "s" "441_123.manifest" "r").2.length =
        3 * (url_list "r" "s" "441_123.manifest").length
    ∧ get_manifest (fun _ => .str "")
        (fun r s p => (get (fun _ _ => .err) s p r).1) "s" "441_123.manifest" [] "r"
        = ⟨.ok [], [], [("r", "441_123.manifest")]⟩ :=
  get_retry_exhaustion (fun _ _ => .err) "s" "441_123.manifest" "r" (fun _ => .str "") []
    (fun _ _ _ => rfl) (by decide) (by decide)

/-- Claim C5: a manifest path whose file already exists in the save
directory makes `get_manifest` return immediately: no fetch call is issued
and the directory contents are unchanged, so a second run never re-downloads
a previously persisted manifest. -/
theorem get_manifest_idempotent (loads : String → VDF)
    (fetch : String → String → String → Option String) (sha path : String)
    (fs : List (String × String)) (repo : String)
    (hm : pyEndsWith path ".manifest" = true)
    (hex : (fs.lookup path).isSome = true) :
    get_manifest loads fetch sha path fs repo = ⟨.ok [], fs, []⟩ := by
  simp [get_manifest, hm, hex]

/-- Claim C5 witness: the file `441_123.manifest` is already present and the
fetch oracle is never consulted. -/
theorem get_manifest_idempotent_witness :
    get_manifest (fun _ => .str "") (fun _ _ _ => some "fresh") "s" "441_123.manifest"
        [("441_123.manifest", "old")] "r"
      = ⟨.ok [], [("441_123.manifest", "old")], []⟩ :=
  get_manifest_idempotent (fun _ => .str "") (fun _ _ _ => some "fresh") "s"
    "441_123.manifest" [("441_123.manifest", "old")] "r" (by decide) (by decide)

/-- Claim C10: a path that does not end in `.manifest` — in particular the
key documents `Key.vdf` and `config.vdf` — never changes the save
directory's contents: only manifest paths can result in a file write. -/
theorem get_manifest_frame (loads : String → VDF)
    (fetch : String → String → String → Option String) (sha path : String)
    (fs : List (String × String)) (repo : String)
    (hm : pyEndsWith path ".manifest" = false) :
    (get_manifest loads fetch sha path fs repo).fs = fs := by
  simp only [get_manifest, hm, Bool.false_eq_true, if_false]
  split
  · cases hfetch : fetch repo sha path with
    | none => rfl
    | some content =>
      by_cases hc : pyEmpty content = true
      · simp [hfetch, hc]
      · cases hext : extract_depots (loads content) with
        | ok ds => simp [hfetch, hc, hext]
        | error e => simp [hfetch, hc, hext]
  · rfl

/-- Claim C10 witness: processing `Key.vdf` with a successfully fetched and
parsed document leaves an existing directory listing untouched. -/
theorem get_manifest_frame_witness :
    (get_manifest (fun _ => .dict [("depots", .dict [("441", .dict [("DecryptionKey", .str "abc123")])])])
        (fun _ _ _ => some "doc") "s" "Key.vdf" [("441_123.manifest", "old")] "r").fs
      = [("441_123.manifest", "old")] :=
  get_manifest_frame
    (fun _ => .dict [("depots", .dict [("441", .dict [("DecryptionKey", .str "abc123")])])])
    (fun _ _ _ => some "doc") "s" "Key.vdf" [("441_123.manifest", "old")] "r" (by decide)

/-! ### The unlock-script generator -/

theorem parse_vdf_to_lua_general (appid d k m : String) :
    parse_vdf_to_lua [(d, k)] appid [⟨d.data ++ '_' :: m.data ++ ".manifest".data⟩] =
      "addappid(" ++ appid ++ ")" ++ "\n" ++
        ("addappid(" ++ d ++ ",1,\"" ++ k ++ "\")") ++ "\n" ++
        ("setManifestid(" ++ d ++ ",\"" ++ m ++ "\",0)") := by
  have hus : ("_" : String).data = ['_'] := rfl
  have hsw : pyStartsWith ⟨d.data ++ '_' :: m.data ++ ".manifest".data⟩ (d ++ "_") = true := by
    simp only [pyStartsWith, List.isPrefixOf_iff_prefix]
    refine ⟨m.data ++ ".manifest".data, ?_⟩
    simp [hus]
  have hew : pyEndsWith ⟨d.data ++ '_' :: m.data ++ ".manifest".data⟩ ".manifest" = true := by
    simp only [pyEndsWith, List.isSuffixOf_iff_suffix]
    refine ⟨d.data ++ '_' :: m.data, ?_⟩
    simp
  have hlen : (d.data ++ ['_']).length = d.length + 1 := by
    rw [List.length_append]; rfl
  have hkey2 : d.data ++ '_' :: m.data ++ ['.', 'm', 'a', 'n', 'i', 'f', 'e', 's', 't']
      = (d.data ++ ['_']) ++ (m.data ++ ['.', 'm', 'a', 'n', 'i', 'f', 'e', 's', 't']) := by
    simp
  have hdrop2 : List.drop (d.length + 1)
        (d.data ++ '_' :: m.data ++ ['.', 'm', 'a', 'n', 'i', 'f', 'e', 's', 't'])
      = m.data ++ ['.', 'm', 'a', 'n', 'i', 'f', 'e', 's', 't'] := by
    rw [hkey2]; exact List.drop_left' hlen
  have hlen3 : (m.data ++ ['.', 'm', 'a', 'n', 'i', 'f', 'e', 's', 't']).length
      - ".manifest".length = m.data.length := by
    rw [List.length_append]; rfl
  have hslice : pySlice ⟨d.data ++ '_' :: m.data ++ ".manifest".data⟩
      (d.length + 1) ".manifest".length = m := by
    dsimp only [pySlice]
    rw [hdrop2, hlen3, List.take_left]
  simp only [parse_vdf_to_lua, List.flatMap_cons, List.flatMap_nil, List.filter_cons,
    List.filter_nil, hsw, hew, Bool.and_self, if_true, List.map_cons, List.map_nil,
    List.append_nil, hslice]
  simp [String.intercalate, String.intercalate.go, String.append_assoc]

/-- Claim C6: the generator emits the registration line for the identifier,
then per depot record a registration line followed by one binding line per
directory file matching the depot's prefix and the manifest suffix, with the
manifest id cut out between them.  First conjunct: the end-to-end example of
the spec.  Second conjunct: the symbolic one-depot one-manifest family,
showing prefix/suffix matching and manifest-id extraction for arbitrary
identifier, depot id, key and manifest id.  Third conjunct: a larger
instance with two depots, several matching files and two non-matching
files. -/
theorem parse_vdf_to_lua_spec :
    parse_vdf_to_lua [("441", "abc123")] "440" ["441_123.manifest"] =
      "addappid(440)\naddappid(441,1,\"abc123\")\nsetManifestid(441,\"123\",0)"
    ∧ (∀ appid d k m : String,
        parse_vdf_to_lua [(d, k)] appid [⟨d.data ++ '_' :: m.data ++ ".manifest".data⟩] =
          "addappid(" ++ appid ++ ")" ++ "\n" ++
            ("addappid(" ++ d ++ ",1,\"" ++ k ++ "\")") ++ "\n" ++
            ("setManifestid(" ++ d ++ ",\"" ++ m ++ "\",0)"))
    ∧ parse_vdf_to_lua [("441", "abc123"), ("550", "k2")] "440"
        ["441_123.manifest", "441_77.manifest", "550_9.manifest", "readme.txt",
         "999_1.manifest"] =
      "addappid(440)\naddappid(441,1,\"abc123\")\nsetManifestid(441,\"123\",0)\nsetManifestid(441,\"77\",0)\naddappid(550,1,\"k2\")\nsetManifestid(550,\"9\",0)" :=
  ⟨by decide, parse_vdf_to_lua_general, by decide⟩

/-! ### Lemmas about the repository loop -/

theorem repoLoop_skip (loads : String → VDF) (fetch : String → String → String → Option String)
    (resolve : String → String → Option (String × List String)) (canonical : String) :
    ∀ (rs rest : List String) (st : DPState),
      (∀ r ∈ rs, resolve r canonical = none) →
      repoLoop loads fetch resolve canonical (rs ++ rest) st =
        repoLoop loads fetch resolve canonical rest
          { st with resolved := st.resolved ++ rs } := by
  intro rs
  induction rs with
  | nil =>
    intro rest st _
    cases st
    simp
  | cons r rs ih =>
    intro rest st h
    have hr := h r (by simp)
    simp only [List.cons_append, repoLoop, hr, List.append_eq]
    rw [ih rest _ (fun x hx => h x (by simp [hx]))]
    cases st
    simp

theorem get_manifest_fetched_cases (loads : String → VDF)
    (fetch : String → String → String → Option String) (sha path : String)
    (fs : List (String × String)) (repo : String) :
    (get_manifest loads fetch sha path fs repo).fetched = []
    ∨ (get_manifest loads fetch sha path fs repo).fetched = [(repo, path)] := by
  unfold get_manifest
  split
  · split
    · exact Or.inl rfl
    · split
      · split
        · exact Or.inr rfl
        · exact Or.inr rfl
      · exact Or.inr rfl
  · split
    · split
      · split
        · exact Or.inr rfl
        · split
          · exact Or.inr rfl
          · exact Or.inr rfl
      · exact Or.inr rfl
    · exact Or.inl rfl

theorem get_manifest_mem_fetched (loads : String → VDF)
    (fetch : String → String → String → Option String) (sha path : String)
    (fs : List (String × String)) (repo : String) :
    ∀ q ∈ (get_manifest loads fetch sha path fs repo).fetched, q.1 = repo := by
  intro q hq
  rcases get_manifest_fetched_cases loads fetch sha path fs repo with h | h <;>
    rw [h] at hq <;> simp_all

theorem tryVdfLoop_fetched (loads : String → VDF)
    (fetch : String → String → String → Option String) (sha repo : String) :
    ∀ (ps : List String) (fs : List (String × String)),
      ∀ q ∈ (tryVdfLoop loads fetch sha repo ps fs).fetched, q.1 = repo := by
  intro ps
  induction ps with
  | nil => intro fs q hq; simp [tryVdfLoop] at hq
  | cons p ps ih =>
    intro fs q hq
    simp only [tryVdfLoop] at hq
    split at hq
    · dsimp only at hq
      exact get_manifest_mem_fetched loads fetch sha p fs repo q hq
    · split at hq
      · dsimp only at hq
        rcases List.mem_append.mp hq with h | h
        · exact get_manifest_mem_fetched loads fetch sha p fs repo q h
        · exact ih _ q h
      · dsimp only at hq
        exact get_manifest_mem_fetched loads fetch sha p fs repo q hq

theorem manifestLoop_fetched (loads : String → VDF)
    (fetch : String → String → String → Option String) (sha repo : String) :
    ∀ (ps : List String) (fs acc : List (String × String)),
      ∀ q ∈ (manifestLoop loads fetch sha repo ps fs acc).fetched, q.1 = repo := by
  intro ps
  induction ps with
  | nil => intro fs acc q hq; simp [manifestLoop] at hq
  | cons p ps ih =>
    intro fs acc q hq
    simp only [manifestLoop] at hq
    split at hq
    · split at hq
      · dsimp only at hq
        exact get_manifest_mem_fetched loads fetch sha p fs repo q hq
      · dsimp only at hq
        rcases List.mem_append.mp hq with h | h
        · exact get_manifest_mem_fetched loads fetch sha p fs repo q h
        · exact ih _ _ q h
    · exact ih _ _ q hq

theorem processRepo_fetched (loads : String → VDF)
    (fetch : String → String → String → Option String) (repo sha : String)
    (tree : List String) (fs : List (String × String)) :
    ∀ q ∈ (processRepo loads fetch repo sha tree fs).fetched, q.1 = repo := by
  intro q hq
  simp only [processRepo] at hq
  split at hq
  · dsimp only at hq
    exact tryVdfLoop_fetched loads fetch sha repo _ fs q hq
  · dsimp only at hq
    rcases List.mem_append.mp hq with h | h
    · exact tryVdfLoop_fetched loads fetch sha repo _ fs q h
    · exact manifestLoop_fetched loads fetch sha repo tree _ _ q h

theorem repos_split_not_mem (pre rest : List String) (A B : String)
    (hsplit : repos = pre ++ A :: rest) (hB : B ∈ rest) : B ∉ pre ++ [A] := by
  have hnd : repos.Nodup := by decide
  rw [hsplit] at hnd
  have h1 : (A :: rest).Nodup := hnd.of_append_right
  have hAB : A ≠ B := by
    intro h
    subst h
    exact (List.nodup_cons.mp h1).1 hB
  have hdisj : pre.Disjoint (A :: rest) := List.disjoint_of_nodup_append hnd
  intro hmem
  rcases List.mem_append.mp hmem with h | h
  · exact hdisj h (List.mem_cons_of_mem _ hB)
  · have hBA : B = A := by simpa using h
    exact hAB hBA.symm

/-- Claim C1: with repository `A` earlier than `B` in the priority list,
repositories before `A` not resolving, and `A`'s processing yielding a
non-empty depot list `dA`, `download_and_process` returns exactly `A`'s
depot records and save directory; the branch-query trace stops at `A`, so
`B` is never resolved, and every fetch was issued against `A`. -/
theorem first_match_wins (loads : String → VDF)
    (fetch : String → String → String → Option String)
    (resolve : String → String → Option (String × List String))
    (app_id game_name canonical : String) (cs : List String)
    (fs0 : List (String × String)) (pre rest : List String) (A B shaA : String)
    (treeA : List String) (dA : List (String × String))
    (hnorm : normalizeAppId app_id = canonical :: cs)
    (hsplit : repos = pre ++ A :: rest)
    (hB : B ∈ rest)
    (hpre : ∀ r ∈ pre, resolve r canonical = none)
    (hA : resolve A canonical = some (shaA, treeA))
    (hproc : (processRepo loads fetch A shaA treeA fs0).result = .ok dA)
    (hne : dA ≠ []) :
    download_and_process loads fetch resolve app_id game_name fs0 =
      (.ok (dA, "[" ++ canonical ++ "]" ++ game_name),
       ⟨(processRepo loads fetch A shaA treeA fs0).fs,
        (processRepo loads fetch A shaA treeA fs0).fetched,
        pre ++ [A],
        ["[" ++ canonical ++ "]" ++ game_name]⟩)
    ∧ B ∉ pre ++ [A]
    ∧ ∀ q ∈ (processRepo loads fetch A shaA treeA fs0).fetched, q.1 = A := by
  refine ⟨?_, repos_split_not_mem pre rest A B hsplit hB,
    processRepo_fetched loads fetch A shaA treeA fs0⟩
  have hde : dA.isEmpty = false := by
    cases dA with
    | nil => exact absurd rfl hne
    | cons a as => rfl
  simp only [download_and_process, hnorm, dpCore]
  rw [hsplit, repoLoop_skip loads fetch resolve canonical pre (A :: rest) _ hpre]
  simp only [repoLoop, hA, hproc, hde, Bool.false_eq_true, if_false]
  simp

/-- Claim C1 witness: the first repository resolves and yields a depot key;
the second repository (and the rest) are never resolved or fetched from. -/
theorem first_match_wins_witness :
    download_and_process
        (fun _ => VDF.dict [("depots", VDF.dict [("441", VDF.dict [("DecryptionKey", VDF.str "abc123")])])])
        (fun _ _ p => if p = "Key.vdf" then some "doc" else none)
        (fun r c => if r = "ManifestHub/ManifestHub" ∧ c = "440" then
          some ("sha1", ["441_123.manifest"]) else none)
        "440" "TF2" [] =
      (.ok ([("441", "abc123")], "[440]TF2"),
       ⟨[], [("ManifestHub/ManifestHub", "Key.vdf"), ("ManifestHub/ManifestHub", "441_123.manifest")],
        ["ManifestHub/ManifestHub"], ["[440]TF2"]⟩)
    ∧ "hansaes/ManifestAutoUpdate" ∉ (["ManifestHub/ManifestHub"] : List String)
    ∧ ∀ q ∈ ([("ManifestHub/ManifestHub", "Key.vdf"),
        ("ManifestHub/ManifestHub", "441_123.manifest")] : List (String × String)),
        q.1 = "ManifestHub/ManifestHub" :=
  first_match_wins
    (fun _ => VDF.dict [("depots", VDF.dict [("441", VDF.dict [("DecryptionKey", VDF.str "abc123")])])])
    (fun _ _ p => if p = "Key.vdf" then some "doc" else none)
    (fun r c => if r = "ManifestHub/ManifestHub" ∧ c = "440" then
      some ("sha1", ["441_123.manifest"]) else none)
    "440" "TF2" "440" [] [] []
    ["hansaes/ManifestAutoUpdate", "Auiowu/ManifestAutoUpdate",
     "tymolu233/ManifestAutoUpdate", "qwq-xinkeng/awaqwqmain"]
    "ManifestHub/ManifestHub" "hansaes/ManifestAutoUpdate" "sha1" ["441_123.manifest"]
    [("441", "abc123")]
    (by decide) rfl (by decide) (fun r hr => absurd hr (List.not_mem_nil r)) rfl rfl (by decide)

/-- Claim C2: when the winning repository's key document is fetched but
malformed (extraction raises), the error propagates out of the repository
loop — `download_and_process` ends with that error — and the save directory
still has its initial contents: no manifest file was written for that
repository before the abort, because key extraction runs before the
manifest loop. -/
theorem malformed_key_aborts (loads : String → VDF)
    (fetch : String → String → String → Option String)
    (resolve : String → String → Option (String × List String))
    (app_id game_name canonical : String) (cs : List String)
    (fs0 : List (String × String)) (pre rest : List String) (A shaA : String)
    (treeA : List String) (e : PyErr)
    (hnorm : normalizeAppId app_id = canonical :: cs)
    (hsplit : repos = pre ++ A :: rest)
    (hpre : ∀ r ∈ pre, resolve r canonical = none)
    (hA : resolve A canonical = some (shaA, treeA))
    (hkey : (∃ doc, fetch A shaA "Key.vdf" = some doc ∧ pyEmpty doc = false ∧
              extract_depots (loads doc) = .error e)
          ∨ (fetch A shaA "Key.vdf" = none ∧ ∃ doc, fetch A shaA "config.vdf" = some doc ∧
              pyEmpty doc = false ∧ extract_depots (loads doc) = .error e)) :
    (download_and_process loads fetch resolve app_id game_name fs0).1 = .error e
    ∧ (download_and_process loads fetch resolve app_id game_name fs0).2.fs = fs0 := by
  have hkv : pyEndsWith "Key.vdf" ".manifest" = false := by decide
  have hcv : pyEndsWith "config.vdf" ".manifest" = false := by decide
  have hmain : ∀ tf : List (String × String),
      tryVdfLoop loads fetch shaA A ["Key.vdf", "config.vdf"] fs0 = ⟨.error e, fs0, tf⟩ →
      (download_and_process loads fetch resolve app_id game_name fs0).1 = .error e
      ∧ (download_and_process loads fetch resolve app_id game_name fs0).2.fs = fs0 := by
    intro tf htv
    have hpr : processRepo loads fetch A shaA treeA fs0 = ⟨.error e, fs0, tf⟩ := by
      simp [processRepo, htv]
    simp only [download_and_process, hnorm, dpCore]
    rw [hsplit, repoLoop_skip loads fetch resolve canonical pre (A :: rest) _ hpre]
    simp only [repoLoop, hA, hpr]
    simp
  rcases hkey with ⟨doc, hf, hne, hext⟩ | ⟨hf1, doc, hf2, hne, hext⟩
  · have hgm : get_manifest loads fetch shaA "Key.vdf" fs0 A
        = ⟨.error e, fs0, [(A, "Key.vdf")]⟩ := by
      simp [get_manifest, hkv, hf, hne, hext]
    exact hmain [(A, "Key.vdf")] (by simp [tryVdfLoop, hgm])
  · have hgm1 : get_manifest loads fetch shaA "Key.vdf" fs0 A
        = ⟨.ok [], fs0, [(A, "Key.vdf")]⟩ := by
      simp [get_manifest, hkv, hf1]
    have hgm2 : get_manifest loads fetch shaA "config.vdf" fs0 A
        = ⟨.error e, fs0, [(A, "config.vdf")]⟩ := by
      simp [get_manifest, hcv, hf2, hne, hext]
    exact hmain [(A, "Key.vdf"), (A, "config.vdf")] (by simp [tryVdfLoop, hgm1, hgm2])

/-- Claim C2 witness: the first repository resolves and its `Key.vdf` parses
to a depots table whose entry lacks `DecryptionKey`; the run aborts with
that KeyError and the directory receives no file. -/
theorem malformed_key_aborts_witness :
    (download_and_process
        (fun _ => VDF.dict [("depots", VDF.dict [("441", VDF.dict [])])])
        (fun _ _ p => if p = "Key.vdf" then some "doc" else none)
        (fun r _ => if r = "ManifestHub/ManifestHub" then
          some ("sha1", ["441_123.manifest"]) else none)
        "440" "TF2" []).1 = .error (.keyError "DecryptionKey")
    ∧ (download_and_process
        (fun _ => VDF.dict [("depots", VDF.dict [("441", VDF.dict [])])])
        (fun _ _ p => if p = "Key.vdf" then some "doc" else none)
        (fun r _ => if r = "ManifestHub/ManifestHub" then
          some ("sha1", ["441_123.manifest"]) else none)
        "440" "TF2" []).2.fs = [] :=
  malformed_key_aborts
    (fun _ => VDF.dict [("depots", VDF.dict [("441", VDF.dict [])])])
    (fun _ _ p => if p = "Key.vdf" then some "doc" else none)
    (fun r _ => if r = "ManifestHub/ManifestHub" then
      some ("sha1", ["441_123.manifest"]) else none)
    "440" "TF2" "440" [] [] []
    ["hansaes/ManifestAutoUpdate", "Auiowu/ManifestAutoUpdate",
     "tymolu233/ManifestAutoUpdate", "qwq-xinkeng/awaqwqmain"]
    "ManifestHub/ManifestHub" "sha1" ["441_123.manifest"] (.keyError "DecryptionKey")
    (by decide) rfl (fun r hr => absurd hr (List.not_mem_nil r)) rfl
    (Or.inl ⟨"doc", rfl, rfl, rfl⟩)

/-- Claim C7: when no repository in the priority list resolves for the
identifier, `download_and_process` returns the empty depot-record list with
the save directory (all five repositories were queried, nothing fetched,
directory contents unchanged), and `main` writes no script file for an
empty depot-record list. -/
theorem no_repo_matches (loads : String → VDF)
    (fetch : String → String → String → Option String)
    (resolve : String → String → Option (String × List String))
    (app_id game_name canonical appid2 save_dir2 : String) (cs : List String)
    (fs0 : List (String × String)) (listing : List String)
    (hnorm : normalizeAppId app_id = canonical :: cs)
    (hall : ∀ r ∈ repos, resolve r canonical = none) :
    download_and_process loads fetch resolve app_id game_name fs0 =
      (.ok ([], "[" ++ canonical ++ "]" ++ game_name),
       ⟨fs0, [], repos, ["[" ++ canonical ++ "]" ++ game_name]⟩)
    ∧ main_lua_output appid2 [] save_dir2 listing = none := by
  constructor
  · simp only [download_and_process, hnorm, dpCore]
    have hskip := repoLoop_skip loads fetch resolve canonical repos []
      ⟨fs0, [], [], ["[" ++ canonical ++ "]" ++ game_name]⟩ hall
    rw [List.append_nil] at hskip
    rw [hskip]
    simp [repoLoop]
  · rfl

/-- Claim C7 witness: a resolver with no matching branch anywhere. -/
theorem no_repo_matches_witness :
    download_and_process (fun _ => .str "") (fun _ _ _ => none) (fun _ _ => none)
        "730" "CS" [] =
      (.ok ([], "[730]CS"), ⟨[], [], repos, ["[730]CS"]⟩)
    ∧ main_lua_output "730" [] "[730]CS" [] = none :=
  no_repo_matches (fun _ => .str "") (fun _ _ _ => none) (fun _ _ => none)
    "730" "CS" "730" "730" "[730]CS" [] [] [] (by decide) (fun _ _ => rfl)

/-- Claim C8: normalization strips surrounding whitespace, splits on the
separator, keeps the decimal segments and uses the first one as the
canonical identifier: `"440-dlc"` and `" 440 "` both normalize to `"440"`,
the whole run is the post-normalization core applied to that first decimal
segment, and the returned save directory is named from it. -/
theorem normalization_first_decimal :
    normalizeAppId "440-dlc" = ["440"] ∧ normalizeAppId " 440 " = ["440"]
    ∧ ∀ (loads : String → VDF) (fetch : String → String → String → Option String)
        (resolve : String → String → Option (String × List String))
        (app_id game_name : String) (fs0 : List (String × String))
        (c : String) (cs : List String),
        normalizeAppId app_id = c :: cs →
        download_and_process loads fetch resolve app_id game_name fs0 =
          dpCore loads fetch resolve c game_name fs0
        ∧ ∀ (ds : List (String × String)) (sd : String),
            (dpCore loads fetch resolve c game_name fs0).1 = .ok (ds, sd) →
            sd = "[" ++ c ++ "]" ++ game_name := by
  refine ⟨by decide, by decide, ?_⟩
  intro loads fetch resolve app_id game_name fs0 c cs hnorm
  constructor
  · simp [download_and_process, hnorm]
  · intro ds sd h2
    simp only [dpCore] at h2
    split at h2
    · exact absurd h2 (by simp)
    · simp only [Except.ok.injEq, Prod.mk.injEq] at h2
      exact h2.2.symm
    · simp only [Except.ok.injEq, Prod.mk.injEq] at h2
      exact h2.2.symm

/-- Claim C8 witness: `"440-dlc"` is processed exactly as the canonical
identifier `"440"` would be, and the save directory is `[440]TF2`. -/
theorem normalization_first_decimal_witness :
    download_and_process (fun _ => .str "") (fun _ _ _ => none) (fun _ _ => none)
        "440-dlc" "TF2" []
      = dpCore (fun _ => .str "") (fun _ _ _ => none) (fun _ _ => none) "440" "TF2" []
    ∧ ("[440]TF2" : String) = "[" ++ "440" ++ "]" ++ "TF2" := by
  have h := normalization_first_decimal.2.2 (fun _ => .str "") (fun _ _ _ => none)
    (fun _ _ => none) "440-dlc" "TF2" [] "440" [] (by decide)
  exact ⟨h.1, h.2 [] "[440]TF2" rfl⟩

/-- Claim C9: an identifier with no decimal segment makes normalization
produce an empty list, and indexing it raises IndexError before any
directory is created, any branch is queried or any fetch is issued: the
returned state records no created directory, no resolve, no fetch, and the
initial directory contents are untouched. -/
theorem empty_normalization_index_error :
    normalizeAppId "abc" = [] ∧ normalizeAppId "-" = []
    ∧ ∀ (loads : String → VDF) (fetch : String → String → String → Option String)
        (resolve : String → String → Option (String × List String))
        (app_id game_name : String) (fs0 : List (String × String)),
        normalizeAppId app_id = [] →
        download_and_process loads fetch resolve app_id game_name fs0 =
          (.error .indexError, ⟨fs0, [], [], []⟩) := by
  refine ⟨by decide, by decide, ?_⟩
  intro loads fetch resolve app_id game_name fs0 hnorm
  simp [download_and_process, hnorm]

/-- Claim C9 witness: the input `"abc"` aborts with IndexError and performs
no effect at all. -/
theorem empty_normalization_index_error_witness :
    download_and_process (fun _ => .str "") (fun _ _ _ => none) (fun _ _ => none)
        "abc" "G" [("441_123.manifest", "old")] =
      (.error .indexError, ⟨[("441_123.manifest", "old")], [], [], []⟩) :=
  empty_normalization_index_error.2.2 (fun _ => .str "") (fun _ _ _ => none)
    (fun _ _ => none) "abc" "G" [("441_123.manifest", "old")] (by decide)

end Manifest2Lua
